import Mathlib

/-!
Shallow embedding of the transaction posting core of the accounts ledger
service: transaction and line data model, transaction validation,
the funds check over resolved accounts, and the sqlite-backed
transaction repository (create, read-back, account scan, balance),
together with theorems settling the specification claims.

Go integers are modelled as Int (amounts, balances) and timestamps as
Nat instants; machine overflow is not in play for any claim here.
Errors returned as formatted strings in Go are modelled as inductive
error values carrying the same data the format string interpolates.
-/

deriving instance DecidableEq for Except

/-- Transaction purposes are strings in the source (type TransactionPurpose string). -/
abbrev TransactionPurpose := String

/-- Embeds TransactionPurpose.validate from cmd/server/transactions.go:
accepts exactly the six enumerated purpose strings, rejects all others
with an unknown-purpose error carrying the offending value. -/
def TransactionPurpose.validate (p : TransactionPurpose) : Except String Unit :=
  if p = "achcredit" ∨ p = "achdebit" ∨ p = "fee" ∨ p = "interest" ∨ p = "transfer" ∨ p = "wire" then
    Except.ok ()
  else
    Except.error ("unknown TransactionPurpose " ++ p)

/-- Embeds transactionLine from cmd/server/transactions.go. -/
structure transactionLine where
  AccountId : String
  Purpose : TransactionPurpose
  Amount : Int
  deriving Repr, DecidableEq

/-- Embeds transaction from cmd/server/transactions.go; time.Time is a Nat instant. -/
structure transaction where
  ID : String
  Timestamp : Nat
  Lines : List transactionLine
  deriving Repr, DecidableEq

/-- Running sum of line amounts, as computed by the loop in transaction.validate. -/
def sumAmounts (t : transaction) : Int :=
  t.Lines.foldl (fun acc l => acc + l.Amount) 0

/-- Error value for transaction.validate, carrying the data of the Go format
string: transaction id, number of lines, and the nonzero sum. -/
structure UnbalancedError where
  id : String
  numLines : Nat
  sum : Int
  deriving Repr, DecidableEq

/-- Embeds transaction.validate from cmd/server/transactions.go: sums all line
amounts and succeeds exactly when the sum is zero. -/
def transaction.validate (t : transaction) : Except UnbalancedError Unit :=
  if sumAmounts t = 0 then
    Except.ok ()
  else
    Except.error ⟨t.ID, t.Lines.length, sumAmounts t⟩

/-- The two fields of gl.Account that checkBalance reads (ID and the computed
balance, int64 in Go). -/
structure Account where
  ID : String
  Balance : Int
  deriving Repr, DecidableEq

/-- Error values for checkBalance, carrying the data of the Go format strings. -/
inductive CheckBalanceError where
  | invalidInput (numAccounts numLines : Nat)
  | insufficientFunds (accountId : String)
  | noMatchingLine (accountId : String)
  deriving Repr, DecidableEq

/-- Inner loop of checkBalance over tx.Lines for one account: at the first line
whose AccountId equals the account id, either fail with insufficientFunds
(when Balance < Amount, the signed compare of the source) or stop with
success (the goto sufficient); if no line matches, fail with noMatchingLine. -/
def checkAccountLines (a : Account) : List transactionLine → Except CheckBalanceError Unit
  | [] => Except.error (CheckBalanceError.noMatchingLine a.ID)
  | l :: rest =>
    if a.ID = l.AccountId then
      if a.Balance < l.Amount then
        Except.error (CheckBalanceError.insufficientFunds a.ID)
      else
        Except.ok ()
    else
      checkAccountLines a rest

/-- Outer loop of checkBalance over the resolved accounts: accounts with
nonpositive balance are skipped; a positive-balance account is checked
against the transaction lines, any failure returning immediately. -/
def checkBalanceLoop (lines : List transactionLine) : List Account → Except CheckBalanceError Unit
  | [] => Except.ok ()
  | a :: rest =>
    if a.Balance > 0 then
      match checkAccountLines a lines with
      | Except.error e => Except.error e
      | Except.ok _ => checkBalanceLoop lines rest
    else
      checkBalanceLoop lines rest

/-- Embeds checkBalance from cmd/server/transactions.go: rejects fewer than two
accounts or an empty line list, then runs the per-account loop. -/
def checkBalance (accounts : List Account) (tx : transaction) : Except CheckBalanceError Unit :=
  if accounts.length < 2 ∨ tx.Lines.length = 0 then
    Except.error (CheckBalanceError.invalidInput accounts.length tx.Lines.length)
  else
    checkBalanceLoop tx.Lines accounts

/-! Sqlite transaction repository (the unnamed repository file holding
sqliteTransactionRepository). A database state is the contents of the
transactions and transaction_lines tables, each a list of rows in insertion
order. Reads are modelled against the state directly; the write path
createTransaction takes a failure oracle describing which sql steps
(Begin, Prepare, Exec per line, Commit) fail and with what driver message,
plus the outcome the tx.Rollback call reports when the code invokes it. -/

/-- Row of the transactions table (transaction_id, timestamp, created_at, deleted_at). -/
structure HeaderRow where
  transaction_id : String
  timestamp : Nat
  created_at : Nat
  deleted_at : Option Nat
  deriving Repr, DecidableEq

/-- Row of the transaction_lines table
(transaction_id, account_id, purpose, amount, created_at, deleted_at). -/
structure LineRow where
  transaction_id : String
  account_id : String
  purpose : TransactionPurpose
  amount : Int
  created_at : Nat
  deleted_at : Option Nat
  deriving Repr, DecidableEq

/-- Contents of the two transaction tables, rows in insertion order. -/
structure DbState where
  transactions : List HeaderRow
  transaction_lines : List LineRow
  deriving Repr, DecidableEq

/-- Failure oracle for one run of createTransaction: none means the step
succeeds, some msg means the driver fails it with that message. rollbackErr
is what the tx.Rollback call reports when a step failure triggers it
(none models a nil rollback error). The repeated time.Now calls inside the
write are modelled as the single instant now. -/
structure SqlFailure where
  beginErr : Option String
  prepareHeader : Option String
  execHeader : Option String
  prepareLine : Nat → Option String
  execLine : Nat → Option String
  commitErr : Option String
  rollbackErr : Option String

/-- Oracle under which every sql step succeeds. -/
def noFailure : SqlFailure :=
  ⟨none, none, none, fun _ => none, fun _ => none, none, none⟩

/-- Error values for createTransaction, one constructor per reachable error
return site of the Go function, carrying the data its format string
interpolates; the step-failure constructors carry both the driver cause and
the rollback outcome, exactly as the source formats error=... rollback=... .
The line-prepare error return site of the source is unreachable — a failed
tx.Prepare returns a nil statement and the stmt.Close() call preceding that
return dereferences it and panics (see CreateResult.panicked) — so no
constructor corresponds to it. -/
inductive CreateTransactionError where
  | invalid (id : String) (e : UnbalancedError)
  | beginFail (cause : String)
  | prepareFail (cause : String) (rollback : Option String)
  | insertFail (cause : String) (rollback : Option String)
  | lineInsertFail (id accountId : String) (cause : String) (rollback : Option String)
  | commitFail (cause : String)
  deriving Repr, DecidableEq

/-- Outcome of one run of createTransaction: a nil error return, an error
value return, or a runtime panic. The panic arises on a line-insert prepare
failure: the source calls stmt.Close() on the nil statement returned by the
failed tx.Prepare, Stmt.Close dereferences its receiver, and the function
never returns — it reaches neither its error construction nor the
tx.Rollback call of that return statement. -/
inductive CreateResult where
  | ok
  | err (e : CreateTransactionError)
  | panicked
  deriving Repr, DecidableEq

/-- Result of the line-insert loop: the inserted rows, a returned error, or
the nil-statement-close panic. -/
inductive InsertLinesResult where
  | rows (rs : List LineRow)
  | err (e : CreateTransactionError)
  | panicked
  deriving Repr, DecidableEq

/-- Line-insert loop of createTransaction: for the i-th line, a prepare
failure makes the source close the nil prepared statement, which panics
before any error is built or tx.Rollback is called; an exec failure returns
an error naming the transaction, the account, the cause and the rollback
outcome; on success the loop yields the LineRow values inserted inside the
open transaction, in order. -/
def insertLines (f : SqlFailure) (now : Nat) (t : transaction) :
    List transactionLine → Nat → InsertLinesResult
  | [], _ => InsertLinesResult.rows []
  | l :: rest, i =>
    match f.prepareLine i with
    | some _ => InsertLinesResult.panicked
    | none =>
      match f.execLine i with
      | some c =>
        InsertLinesResult.err
          (CreateTransactionError.lineInsertFail t.ID l.AccountId c f.rollbackErr)
      | none =>
        match insertLines f now t rest (i + 1) with
        | InsertLinesResult.err e => InsertLinesResult.err e
        | InsertLinesResult.panicked => InsertLinesResult.panicked
        | InsertLinesResult.rows rows =>
          InsertLinesResult.rows (⟨t.ID, l.AccountId, l.Purpose, l.Amount, now, none⟩ :: rows)

/-- State reached when a posting of t at instant now commits: the header row
and all line rows appended to the tables. -/
def applyTransaction (now : Nat) (s : DbState) (t : transaction) : DbState :=
  { transactions := s.transactions ++ [⟨t.ID, t.Timestamp, now, none⟩],
    transaction_lines :=
      s.transaction_lines ++ t.Lines.map (fun l => ⟨t.ID, l.AccountId, l.Purpose, l.Amount, now, none⟩) }

/-- Embeds createTransaction of sqliteTransactionRepository: validate the
transaction, Begin, prepare and exec the header insert, prepare and exec each
line insert, Commit. The paired state is what subsequent readers see: the
initial state on any error return and also on the line-prepare panic (the
open sql transaction never committed), the fully extended state on success. -/
def createTransaction (f : SqlFailure) (now : Nat) (s : DbState) (t : transaction) :
    CreateResult × DbState :=
  match t.validate with
  | Except.error e => (CreateResult.err (CreateTransactionError.invalid t.ID e), s)
  | Except.ok _ =>
    match f.beginErr with
    | some c => (CreateResult.err (CreateTransactionError.beginFail c), s)
    | none =>
      match f.prepareHeader with
      | some c => (CreateResult.err (CreateTransactionError.prepareFail c f.rollbackErr), s)
      | none =>
        match f.execHeader with
        | some c => (CreateResult.err (CreateTransactionError.insertFail c f.rollbackErr), s)
        | none =>
          match insertLines f now t t.Lines 0 with
          | InsertLinesResult.err e => (CreateResult.err e, s)
          | InsertLinesResult.panicked => (CreateResult.panicked, s)
          | InsertLinesResult.rows _ =>
            match f.commitErr with
            | some c => (CreateResult.err (CreateTransactionError.commitFail c), s)
            | none => (CreateResult.ok, applyTransaction now s t)

/-- Embeds getTransaction of sqliteTransactionRepository: the header query
selects timestamp from transactions where transaction_id matches and
deleted_at is null (limit 1; no row is the sql no-rows error), then the line
query selects account_id, purpose, amount from transaction_lines where
transaction_id matches and deleted_at is null, in table order. -/
def getTransaction (s : DbState) (transactionId : String) : Except String transaction :=
  match s.transactions.find? (fun h => h.transaction_id = transactionId ∧ h.deleted_at = none) with
  | none => Except.error "getTransaction: timestamp query: sql: no rows in result set"
  | some h =>
    let rows := s.transaction_lines.filter (fun l => l.transaction_id = transactionId ∧ l.deleted_at = none)
    Except.ok ⟨transactionId, h.timestamp, rows.map (fun l => ⟨l.account_id, l.purpose, l.amount⟩)⟩

/-- Insertion of one row into a list kept sorted by created_at descending,
modelling the order by created_at desc of the id scan. -/
def insertByCreatedAtDesc (l : LineRow) : List LineRow → List LineRow
  | [] => [l]
  | x :: xs => if x.created_at ≤ l.created_at then l :: x :: xs else x :: insertByCreatedAtDesc l xs

/-- Sort by created_at descending (stable insertion sort). -/
def sortByCreatedAtDesc : List LineRow → List LineRow
  | [] => []
  | x :: xs => insertByCreatedAtDesc x (sortByCreatedAtDesc xs)

/-- Distinct keeps the first occurrence of each transaction_id. -/
def distinctKeepFirst (ids : List String) : List String :=
  ids.foldl (fun acc x => if x ∈ acc then acc else acc ++ [x]) []

/-- Reconstruction loop of getAccountTransactions: getTransaction for each id,
the first failure returning immediately. -/
def getTransactionsList (s : DbState) : List String → Except String (List transaction)
  | [] => Except.ok []
  | id :: rest =>
    match getTransaction s id with
    | Except.error e => Except.error e
    | Except.ok t =>
      match getTransactionsList s rest with
      | Except.error e => Except.error e
      | Except.ok ts => Except.ok (t :: ts)

/-- Embeds getAccountTransactions of sqliteTransactionRepository: the id scan
selects distinct transaction_id from transaction_lines where account_id
matches, ordered by created_at descending — the scan carries no deleted_at
filter — then reconstructs each transaction via getTransaction. -/
def getAccountTransactions (s : DbState) (accountId : String) : Except String (List transaction) :=
  let scanned := sortByCreatedAtDesc (s.transaction_lines.filter (fun l => l.account_id = accountId))
  let ids := distinctKeepFirst (scanned.map (fun l => l.transaction_id))
  getTransactionsList s ids

/-- Sql SUM aggregate over the amount column: null over no rows, otherwise the
running total. -/
def sqlSumAmount (rows : List LineRow) : Option Int :=
  rows.foldl (fun acc r => some (acc.getD 0 + r.amount)) none

/-- Embeds getAccountBalance of sqliteTransactionRepository: select
coalesce(sum(amount), 0) from transaction_lines where account_id matches and
deleted_at is null. -/
def getAccountBalance (s : DbState) (accountId : String) : Int :=
  (sqlSumAmount (s.transaction_lines.filter
    (fun l => l.account_id = accountId ∧ l.deleted_at = none))).getD 0

/-- Rewrites every line purpose of a transaction through f, leaving ids and
amounts untouched. -/
def setLinePurposes (fp : TransactionPurpose → TransactionPurpose) (t : transaction) : transaction :=
  { t with Lines := t.Lines.map (fun l => { l with Purpose := fp l.Purpose }) }

/-- The zero-sum three-line posting of the specification example
(A: -300, B: +200, C: +100). -/
def exampleTx : transaction :=
  ⟨"tx1", 7, [⟨"A", "transfer", -300⟩, ⟨"B", "transfer", 200⟩, ⟨"C", "transfer", 100⟩]⟩

/-- Oracle that forces the prepare of the third line insert (index 2) to fail. -/
def thirdLinePrepareFailure : SqlFailure :=
  ⟨none, none, none, fun i => if i = 2 then some "boom" else none, fun _ => none, none, none⟩

/-! Helper lemmas about the funds check. -/

/-- The outer loop of checkBalance skips every account with nonpositive balance. -/
lemma checkBalanceLoop_skipped (lines : List transactionLine) (accounts : List Account)
    (hbal : ∀ a ∈ accounts, a.Balance ≤ 0) :
    checkBalanceLoop lines accounts = Except.ok () := by
  induction accounts with
  | nil => rfl
  | cons a rest ih =>
    have ha : ¬ a.Balance > 0 := by
      have := hbal a (by simp)
      omega
    simp only [checkBalanceLoop, if_neg ha]
    exact ih (fun x hx => hbal x (by simp [hx]))

/-- The inner loop of checkBalance is a function of the first line whose
account id matches the account. -/
lemma checkAccountLines_eq_find (a : Account) (lines : List transactionLine) :
    checkAccountLines a lines =
      match lines.find? (fun l => a.ID = l.AccountId) with
      | none => Except.error (CheckBalanceError.noMatchingLine a.ID)
      | some l =>
        if a.Balance < l.Amount then Except.error (CheckBalanceError.insufficientFunds a.ID)
        else Except.ok () := by
  induction lines with
  | nil => rfl
  | cons l rest ih =>
    by_cases h : a.ID = l.AccountId
    · simp [checkAccountLines, List.find?, h]
    · simp [checkAccountLines, List.find?, h, ih]

/-- Two line lists whose first matching line agrees on every positive-balance
account drive the outer loop of checkBalance to the same verdict. -/
lemma checkBalanceLoop_congr (lines lines' : List transactionLine) (accounts : List Account)
    (hfind : ∀ a ∈ accounts, 0 < a.Balance →
      lines.find? (fun l => a.ID = l.AccountId) = lines'.find? (fun l => a.ID = l.AccountId)) :
    checkBalanceLoop lines accounts = checkBalanceLoop lines' accounts := by
  induction accounts with
  | nil => rfl
  | cons a rest ih =>
    have ihr := ih (fun x hx h0 => hfind x (by simp [hx]) h0)
    by_cases hb : a.Balance > 0
    · simp only [checkBalanceLoop, if_pos hb]
      rw [checkAccountLines_eq_find, checkAccountLines_eq_find, hfind a (by simp) hb]
      cases hf : lines'.find? (fun l => a.ID = l.AccountId) with
      | none => rfl
      | some l =>
        by_cases hlt : a.Balance < l.Amount
        · simp [hlt]
        · simp [hlt, ihr]
    · simp only [checkBalanceLoop, if_neg hb]
      exact ihr

/-- C1: transaction.validate succeeds exactly when the signed sum of the line
amounts is zero, and createTransaction rejects any nonzero-sum transaction
with the unbalanced error, leaving the database state untouched (the
validation runs before Begin, so no write of any kind happens). -/
theorem c1_zero_sum_gate :
    (∀ t : transaction, t.validate = Except.ok () ↔ sumAmounts t = 0) ∧
    (∀ (f : SqlFailure) (now : Nat) (s : DbState) (t : transaction), sumAmounts t ≠ 0 →
      createTransaction f now s t =
        (CreateResult.err (CreateTransactionError.invalid t.ID ⟨t.ID, t.Lines.length, sumAmounts t⟩), s)) := by
  constructor
  · intro t
    by_cases hs : sumAmounts t = 0
    · simp [transaction.validate, hs]
    · simp [transaction.validate, hs]
  · intro f now s t h
    have hv : t.validate = Except.error ⟨t.ID, t.Lines.length, sumAmounts t⟩ := by
      simp [transaction.validate, h]
    simp [createTransaction, hv]

/-- Witness for C1 at a one-line transaction with sum 1. -/
theorem c1_zero_sum_gate_witness :
    createTransaction noFailure 0 ⟨[], []⟩ ⟨"t", 0, [⟨"A", "fee", 1⟩]⟩ =
      (CreateResult.err (CreateTransactionError.invalid "t" ⟨"t", 1, 1⟩), ⟨[], []⟩) :=
  c1_zero_sum_gate.2 noFailure 0 ⟨[], []⟩ ⟨"t", 0, [⟨"A", "fee", 1⟩]⟩ (by decide)

/-- C3: evaluation of the code at the failing input of the claim. Account A
has balance 100 and a debit line of -200, so its balance is smaller than the
absolute line amount; the signed compare Balance < Amount of the source is
false there, hence checkBalance succeeds instead of failing with the
insufficient-funds error. -/
theorem c3_signed_compare_eval :
    checkBalance [⟨"A", 100⟩, ⟨"B", 0⟩]
      ⟨"t", 0, [⟨"A", "transfer", -200⟩, ⟨"B", "transfer", 200⟩]⟩ = Except.ok () := by
  decide

/-- C4 counterexample: a transaction with zero lines has sum zero, so
transaction.validate succeeds; the claimed empty-transaction failure does
not exist in the code. -/
theorem c4_counterexample :
    transaction.validate ⟨"t", 0, []⟩ = Except.ok () := by decide

/-- C4 amended: transaction.validate accepts every transaction with zero
lines, since the empty sum is zero and no emptiness check is performed. -/
theorem c4_empty_transaction_accepted (t : transaction) (h : t.Lines = []) :
    t.validate = Except.ok () := by
  simp [transaction.validate, sumAmounts, h]

/-- Witness for C4 amended at a concrete empty transaction. -/
theorem c4_empty_transaction_accepted_witness :
    transaction.validate ⟨"e", 1, []⟩ = Except.ok () :=
  c4_empty_transaction_accepted ⟨"e", 1, []⟩ rfl

/-- C5 counterexample: the purpose bogus is rejected by
TransactionPurpose.validate, yet a zero-sum transaction whose every line
carries that purpose passes transaction.validate, so transaction.validate
does not delegate to any line-level validation. -/
theorem c5_counterexample :
    TransactionPurpose.validate "bogus" = Except.error "unknown TransactionPurpose bogus" ∧
    transaction.validate ⟨"t", 0, [⟨"A", "bogus", -1⟩, ⟨"B", "bogus", 1⟩]⟩ = Except.ok () := by
  constructor
  · decide
  · decide

/-- C5 amended: transaction.validate performs no per-line validation at all —
its verdict is invariant under arbitrary rewriting of every line purpose —
while TransactionPurpose.validate itself accepts exactly the six enumerated
purposes (but is never invoked by transaction.validate). -/
theorem c5_no_line_delegation :
    (∀ (t : transaction) (fp : TransactionPurpose → TransactionPurpose),
      (setLinePurposes fp t).validate = t.validate) ∧
    (∀ p : TransactionPurpose, p.validate = Except.ok () ↔
      p ∈ ["achcredit", "achdebit", "fee", "interest", "transfer", "wire"]) := by
  constructor
  · intro t fp
    have hsum : sumAmounts (setLinePurposes fp t) = sumAmounts t := by
      simp [sumAmounts, setLinePurposes, List.foldl_map]
    have hlen : (setLinePurposes fp t).Lines.length = t.Lines.length := by
      simp [setLinePurposes]
    have hid : (setLinePurposes fp t).ID = t.ID := rfl
    simp only [transaction.validate]
    rw [hsum, hlen, hid]
  · intro p
    by_cases h : p = "achcredit" ∨ p = "achdebit" ∨ p = "fee" ∨ p = "interest" ∨ p = "transfer" ∨ p = "wire"
    · simp [TransactionPurpose.validate, h]
    · simp [TransactionPurpose.validate, h]

/-- Witness for C5 amended: rewriting the purposes of a concrete transaction
to bogus leaves the verdict of transaction.validate unchanged. -/
theorem c5_no_line_delegation_witness :
    transaction.validate (setLinePurposes (fun _ => "bogus") ⟨"t", 0, [⟨"A", "fee", 0⟩]⟩) =
      transaction.validate ⟨"t", 0, [⟨"A", "fee", 0⟩]⟩ :=
  c5_no_line_delegation.1 ⟨"t", 0, [⟨"A", "fee", 0⟩]⟩ (fun _ => "bogus")

/-- C6: under the funds-check precondition (at least two accounts, a nonempty
line list), checkBalance succeeds whenever every resolved account has a
nonpositive balance: such accounts are skipped by the outer loop, so no
funds-check error can be triggered, whatever the lines of the transaction. -/
theorem c6_nonpositive_balances_pass (accounts : List Account) (tx : transaction)
    (hlen : 2 ≤ accounts.length) (hlines : tx.Lines ≠ [])
    (hbal : ∀ a ∈ accounts, a.Balance ≤ 0) :
    checkBalance accounts tx = Except.ok () := by
  have hg : ¬(accounts.length < 2 ∨ tx.Lines.length = 0) := by
    push_neg
    exact ⟨by omega, fun hz => hlines (List.length_eq_zero.mp hz)⟩
  simp only [checkBalance, if_neg hg]
  exact checkBalanceLoop_skipped tx.Lines accounts hbal

/-- Witness for C6 at two nonpositive-balance accounts heavily debited. -/
theorem c6_nonpositive_balances_pass_witness :
    checkBalance [⟨"A", 0⟩, ⟨"B", -5⟩]
      ⟨"t", 0, [⟨"A", "fee", -100⟩, ⟨"B", "fee", 100⟩]⟩ = Except.ok () :=
  c6_nonpositive_balances_pass [⟨"A", 0⟩, ⟨"B", -5⟩]
    ⟨"t", 0, [⟨"A", "fee", -100⟩, ⟨"B", "fee", 100⟩]⟩ (by decide) (by decide) (by decide)

/-- C10: under the funds-check precondition, the verdict of checkBalance
depends only on the first line matching each positive-balance account: two
transactions whose first matching line agrees on every positive-balance
account receive the same verdict, so later lines against the same account
(and any cumulative amount) are ignored. -/
theorem c10_first_matching_line_only (accounts : List Account) (tx tx' : transaction)
    (hlen : 2 ≤ accounts.length) (h : tx.Lines ≠ []) (h' : tx'.Lines ≠ [])
    (hfind : ∀ a ∈ accounts, 0 < a.Balance →
      tx.Lines.find? (fun l => a.ID = l.AccountId) = tx'.Lines.find? (fun l => a.ID = l.AccountId)) :
    checkBalance accounts tx = checkBalance accounts tx' := by
  have hg : ¬(accounts.length < 2 ∨ tx.Lines.length = 0) := by
    push_neg
    exact ⟨by omega, fun hz => h (List.length_eq_zero.mp hz)⟩
  have hg' : ¬(accounts.length < 2 ∨ tx'.Lines.length = 0) := by
    push_neg
    exact ⟨by omega, fun hz => h' (List.length_eq_zero.mp hz)⟩
  simp only [checkBalance, if_neg hg, if_neg hg']
  exact checkBalanceLoop_congr tx.Lines tx'.Lines accounts hfind

/-- Witness for C10: account A has balance 5; a transaction whose lines debit
A by a cumulative 103 after a first line of 3 gets the same verdict as one
holding only the first line of 3. -/
theorem c10_first_matching_line_only_witness :
    checkBalance [⟨"A", 5⟩, ⟨"B", 0⟩]
        ⟨"t", 0, [⟨"A", "fee", 3⟩, ⟨"A", "fee", 100⟩, ⟨"B", "fee", -103⟩]⟩ =
      checkBalance [⟨"A", 5⟩, ⟨"B", 0⟩] ⟨"u", 1, [⟨"A", "fee", 3⟩, ⟨"B", "fee", -3⟩]⟩ :=
  c10_first_matching_line_only [⟨"A", 5⟩, ⟨"B", 0⟩]
    ⟨"t", 0, [⟨"A", "fee", 3⟩, ⟨"A", "fee", 100⟩, ⟨"B", "fee", -103⟩]⟩
    ⟨"u", 1, [⟨"A", "fee", 3⟩, ⟨"B", "fee", -3⟩]⟩
    (by decide) (by decide) (by decide) (by decide)

/-! Helper lemmas about the write path. -/

/-- Complete outcome dichotomy of createTransaction on the visible state:
either it succeeds and the state is the fully extended one, or it does not
return nil (an error return or the line-prepare panic) and the state is
untouched. -/
lemma createTransaction_cases (f : SqlFailure) (now : Nat) (s : DbState) (t : transaction) :
    ((createTransaction f now s t).1 = CreateResult.ok ∧
      (createTransaction f now s t).2 = applyTransaction now s t) ∨
    ((createTransaction f now s t).1 ≠ CreateResult.ok ∧
      (createTransaction f now s t).2 = s) := by
  unfold createTransaction
  cases hv : t.validate with
  | error e' => exact Or.inr ⟨fun h => CreateResult.noConfusion h, rfl⟩
  | ok u =>
    cases u
    cases hb : f.beginErr with
    | some c => exact Or.inr ⟨fun h => CreateResult.noConfusion h, rfl⟩
    | none =>
      cases hph : f.prepareHeader with
      | some c => exact Or.inr ⟨fun h => CreateResult.noConfusion h, rfl⟩
      | none =>
        cases heh : f.execHeader with
        | some c => exact Or.inr ⟨fun h => CreateResult.noConfusion h, rfl⟩
        | none =>
          cases hil : insertLines f now t t.Lines 0 with
          | err e' => exact Or.inr ⟨fun h => CreateResult.noConfusion h, rfl⟩
          | panicked => exact Or.inr ⟨fun h => CreateResult.noConfusion h, rfl⟩
          | rows rows =>
            cases hc : f.commitErr with
            | some c => exact Or.inr ⟨fun h => CreateResult.noConfusion h, rfl⟩
            | none => exact Or.inl ⟨rfl, rfl⟩

/-- On success the visible state is the fully extended one. -/
lemma createTransaction_ok_state (f : SqlFailure) (now : Nat) (s : DbState) (t : transaction)
    (h : (createTransaction f now s t).1 = CreateResult.ok) :
    (createTransaction f now s t).2 = applyTransaction now s t := by
  rcases createTransaction_cases f now s t with ⟨_, hs⟩ | ⟨hne, _⟩
  · exact hs
  · exact absurd h hne

/-- C2: evaluation of the code at the failing input of the claim. Posting the
zero-sum example (A: -300, B: +200, C: +100) into the empty database with a
forced prepare failure on the third line insert does not return the claimed
error reporting cause and rollback outcome: the source closes the nil
statement returned by the failed tx.Prepare, which panics before any error
is built and before tx.Rollback is invoked; no row of the posting becomes
visible. -/
theorem c2_line_prepare_panic_eval :
    createTransaction thirdLinePrepareFailure 9 ⟨[], []⟩ exampleTx =
      (CreateResult.panicked, ⟨[], []⟩) := by
  rfl

/-- C7: after a successful posting of a fresh-id transaction, reading it back
by id returns a transaction whose lines are (a permutation of, in fact equal
to) the posted lines, with the same amount total. -/
theorem c7_round_trip (f : SqlFailure) (now : Nat) (s : DbState) (t : transaction)
    (hfreshH : ∀ h ∈ s.transactions, h.transaction_id ≠ t.ID)
    (hfreshL : ∀ l ∈ s.transaction_lines, l.transaction_id ≠ t.ID)
    (hok : (createTransaction f now s t).1 = CreateResult.ok) :
    ∃ u, getTransaction (createTransaction f now s t).2 t.ID = Except.ok u ∧
      u.Lines.Perm t.Lines ∧ sumAmounts u = sumAmounts t := by
  rw [createTransaction_ok_state f now s t hok]
  refine ⟨⟨t.ID, t.Timestamp, t.Lines⟩, ?_, List.Perm.refl t.Lines, rfl⟩
  simp only [getTransaction, applyTransaction]
  have hfindN : s.transactions.find? (fun h => h.transaction_id = t.ID ∧ h.deleted_at = none)
      = none := by
    rw [List.find?_eq_none]
    intro x hx
    simp [hfreshH x hx]
  have hfind1 : List.find? (fun h => h.transaction_id = t.ID ∧ h.deleted_at = none)
      [(⟨t.ID, t.Timestamp, now, none⟩ : HeaderRow)] = some ⟨t.ID, t.Timestamp, now, none⟩ := by
    simp [List.find?]
  rw [List.find?_append, hfindN, Option.none_or, hfind1]
  have hfilterN : s.transaction_lines.filter
      (fun l => l.transaction_id = t.ID ∧ l.deleted_at = none) = [] := by
    rw [List.filter_eq_nil_iff]
    intro a ha
    simp [hfreshL a ha]
  have hfilterM : (t.Lines.map
        (fun l => (⟨t.ID, l.AccountId, l.Purpose, l.Amount, now, none⟩ : LineRow))).filter
      (fun l => l.transaction_id = t.ID ∧ l.deleted_at = none) =
      t.Lines.map (fun l => (⟨t.ID, l.AccountId, l.Purpose, l.Amount, now, none⟩ : LineRow)) := by
    rw [List.filter_eq_self]
    intro a ha
    obtain ⟨l, _, rfl⟩ := List.mem_map.mp ha
    simp
  dsimp only
  rw [List.filter_append, hfilterN, hfilterM, List.nil_append, List.map_map]
  exact congrArg
    (fun ls => (Except.ok { ID := t.ID, Timestamp := t.Timestamp, Lines := ls } :
      Except String transaction))
    (List.map_id'' (fun x => rfl) t.Lines)

/-- Witness for C7 at a concrete two-line posting into the empty database. -/
theorem c7_round_trip_witness :
    ∃ u, getTransaction (createTransaction noFailure 4 ⟨[], []⟩
        ⟨"r1", 2, [⟨"A", "wire", -50⟩, ⟨"B", "wire", 50⟩]⟩).2 "r1" = Except.ok u ∧
      u.Lines.Perm [⟨"A", "wire", -50⟩, ⟨"B", "wire", 50⟩] ∧
      sumAmounts u = sumAmounts ⟨"r1", 2, [⟨"A", "wire", -50⟩, ⟨"B", "wire", 50⟩]⟩ :=
  c7_round_trip noFailure 4 ⟨[], []⟩ ⟨"r1", 2, [⟨"A", "wire", -50⟩, ⟨"B", "wire", 50⟩]⟩
    (by simp) (by simp) (by decide)

/-- Sql SUM followed by coalesce is the plain sum of the column values. -/
lemma sqlSumAmount_getD (rows : List LineRow) :
    (sqlSumAmount rows).getD 0 = (rows.map LineRow.amount).sum := by
  have key : ∀ (rs : List LineRow) (acc : Option Int),
      (rs.foldl (fun acc r => some (acc.getD 0 + r.amount)) acc).getD 0 =
        acc.getD 0 + (rs.map LineRow.amount).sum := by
    intro rs
    induction rs with
    | nil => intro acc; simp
    | cons r rest ih =>
      intro acc
      simp only [List.foldl, List.map, List.sum_cons, ih (some (acc.getD 0 + r.amount))]
      simp
      ring
  simpa [sqlSumAmount] using key rows none

/-- C8: getAccountBalance returns the sum of the amounts of all non-deleted
lines on the account, and returns 0 (it has no error outcome at all) for an
account with no lines. -/
theorem c8_balance_is_sum (s : DbState) (accountId : String) :
    getAccountBalance s accountId =
      ((s.transaction_lines.filter
        (fun l => l.account_id = accountId ∧ l.deleted_at = none)).map LineRow.amount).sum ∧
    ((∀ l ∈ s.transaction_lines, l.account_id ≠ accountId) →
      getAccountBalance s accountId = 0) := by
  constructor
  · simp only [getAccountBalance]
    exact sqlSumAmount_getD _
  · intro hnone
    have hfilter : s.transaction_lines.filter
        (fun l => l.account_id = accountId ∧ l.deleted_at = none) = [] := by
      rw [List.filter_eq_nil_iff]
      intro a ha
      simp [hnone a ha]
    simp only [getAccountBalance]
    rw [hfilter]
    rfl

/-- Witness for C8: an account with no lines has balance 0. -/
theorem c8_balance_is_sum_witness :
    getAccountBalance ⟨[], [⟨"t1", "A", "fee", 10, 0, none⟩]⟩ "B" = 0 :=
  (c8_balance_is_sum ⟨[], [⟨"t1", "A", "fee", 10, 0, none⟩]⟩ "B").2 (by decide)

/-- C9 counterexample: account A touches transaction t1 only through a
soft-deleted line, yet getAccountTransactions still returns t1 (with its
non-deleted lines, here none), because the distinct-id scan over
transaction_lines carries no deleted_at filter. -/
theorem c9_counterexample :
    getAccountTransactions ⟨[⟨"t1", 5, 0, none⟩], [⟨"t1", "A", "fee", 10, 0, some 3⟩]⟩ "A" =
      Except.ok [⟨"t1", 5, []⟩] := by decide

/-- Every transaction of a successful reconstruction loop comes from
getTransaction on one of the scanned ids. -/
lemma getTransactionsList_mem (s : DbState) :
    ∀ (ids : List String) (ts : List transaction), getTransactionsList s ids = Except.ok ts →
      ∀ u ∈ ts, ∃ id ∈ ids, getTransaction s id = Except.ok u := by
  intro ids
  induction ids with
  | nil =>
    intro ts h u hu
    simp only [getTransactionsList] at h
    cases h
    simp at hu
  | cons id rest ih =>
    intro ts h u hu
    simp only [getTransactionsList] at h
    split at h
    next e hg => exact Except.noConfusion h
    next t0 hg =>
      split at h
      next e hr => exact Except.noConfusion h
      next ts' hr =>
        cases h
        rcases List.mem_cons.mp hu with rfl | hmem
        · exact ⟨id, by simp, hg⟩
        · obtain ⟨id', hid', hgt⟩ := ih ts' hr u hmem
          exact ⟨id', by simp [hid'], hgt⟩

/-- A successful getTransaction returns the queried id, a non-deleted header
for it, and exactly the non-deleted lines of that id. -/
lemma getTransaction_ok_shape (s : DbState) (id : String) (u : transaction)
    (h : getTransaction s id = Except.ok u) :
    u.ID = id ∧ (∃ hd ∈ s.transactions, hd.transaction_id = id ∧ hd.deleted_at = none) ∧
      u.Lines = (s.transaction_lines.filter
        (fun l => l.transaction_id = id ∧ l.deleted_at = none)).map
        (fun l => ⟨l.account_id, l.purpose, l.amount⟩) := by
  simp only [getTransaction] at h
  split at h
  next hf => exact Except.noConfusion h
  next hd hf =>
    cases h
    refine ⟨rfl, ⟨hd, List.mem_of_find?_eq_some hf, ?_⟩, rfl⟩
    have hp := List.find?_some hf
    simpa using hp

/-- C9 amended: the reconstruction itself only ever surfaces non-deleted
data — every transaction returned by getAccountTransactions has a
non-deleted header row and carries exactly the non-deleted lines of its id —
but (see the counterexample) the id scan itself does not filter deleted
lines, so a soft-deleted line can still cause its transaction to appear. -/
theorem c9_reconstruction_excludes_deleted (s : DbState) (accountId : String)
    (ts : List transaction) (h : getAccountTransactions s accountId = Except.ok ts) :
    ∀ u ∈ ts, (∃ hd ∈ s.transactions, hd.transaction_id = u.ID ∧ hd.deleted_at = none) ∧
      u.Lines = (s.transaction_lines.filter
        (fun l => l.transaction_id = u.ID ∧ l.deleted_at = none)).map
        (fun l => ⟨l.account_id, l.purpose, l.amount⟩) := by
  intro u hu
  simp only [getAccountTransactions] at h
  obtain ⟨id, _, hget⟩ := getTransactionsList_mem s _ ts h u hu
  obtain ⟨hID, hhd, hlines⟩ := getTransaction_ok_shape s id u hget
  subst hID
  exact ⟨hhd, hlines⟩

/-- Witness for C9 amended at a one-header, one-live-line state. -/
theorem c9_reconstruction_excludes_deleted_witness :
    (∃ hd ∈ (⟨[⟨"t1", 5, 0, none⟩], [⟨"t1", "A", "fee", 10, 0, none⟩]⟩ : DbState).transactions,
        hd.transaction_id = (⟨"t1", 5, [⟨"A", "fee", 10⟩]⟩ : transaction).ID ∧
          hd.deleted_at = none) ∧
      (⟨"t1", 5, [⟨"A", "fee", 10⟩]⟩ : transaction).Lines =
        ((⟨[⟨"t1", 5, 0, none⟩], [⟨"t1", "A", "fee", 10, 0, none⟩]⟩ : DbState).transaction_lines.filter
          (fun l => l.transaction_id = (⟨"t1", 5, [⟨"A", "fee", 10⟩]⟩ : transaction).ID ∧
            l.deleted_at = none)).map (fun l => ⟨l.account_id, l.purpose, l.amount⟩) :=
  c9_reconstruction_excludes_deleted
    ⟨[⟨"t1", 5, 0, none⟩], [⟨"t1", "A", "fee", 10, 0, none⟩]⟩ "A"
    [⟨"t1", 5, [⟨"A", "fee", 10⟩]⟩] (by decide) ⟨"t1", 5, [⟨"A", "fee", 10⟩]⟩ (by simp)
